import Mathlib

/-
Verification of the BizSakhi Message Intent Resolution & Transaction Dispatch
Pipeline (backend/main.py) against its specification.

The pipeline is embedded shallowly: Python functions become Lean functions,
calls to the external Supabase ledger, the AI classifier and the chat-history
sink are parameters (an interface record and an outcome value), and every
side effect performed by the pipeline is recorded in an explicit effect trace.
Python float values are modelled as exact rationals in an executable
numerator/denominator representation, with overflow-free integer arithmetic.
-/

set_option maxRecDepth 100000

namespace BizSakhi

/-! ## String utilities (modelling Python str operations and re patterns) -/

/-- Lowercase a string character-by-character, modelling Python str.lower for
the ASCII keywords the pipeline matches on (the Indic keywords are caseless). -/
def lowerString (s : String) : String := String.mk (s.data.map Char.toLower)

/-- Whitespace test modelling the regex class \s and Python str.strip. -/
def isWs (c : Char) : Bool :=
  c = ' ' ∨ c = '\t' ∨ c = '\n' ∨ c = '\x0d' ∨ c = '\x0b' ∨ c = '\x0c'

/-- Strip leading and trailing whitespace, modelling Python str.strip. -/
def trimChars (cs : List Char) : List Char :=
  ((cs.dropWhile isWs).reverse.dropWhile isWs).reverse

/-- Infix test on character lists (executable, kernel-reducible). -/
def isInfixList (needle haystack : List Char) : Bool :=
  match haystack with
  | [] => needle.isEmpty
  | _ :: rest => needle.isPrefixOf haystack || isInfixList needle rest

/-- Substring containment, modelling the Python expression needle in haystack. -/
def containsSubstr (haystack needle : String) : Bool :=
  isInfixList needle.data haystack.data

/-- Membership of any keyword of a list, modelling
any of word in m for word in kws. -/
def containsAnyKw (m : String) (kws : List String) : Bool :=
  kws.any (fun k => containsSubstr m k)

/-- Prefix test on strings via their character lists. -/
def startsWithStr (s pre : String) : Bool := pre.data.isPrefixOf s.data

/-- Split a character list on single spaces, modelling Python str.split(" "). -/
def splitSpaceList : List Char → List (List Char)
  | [] => [[]]
  | ' ' :: rest => [] :: splitSpaceList rest
  | c :: rest =>
    match splitSpaceList rest with
    | [] => [[c]]
    | w :: ws => (c :: w) :: ws

/-! ## Exact numbers standing for Python float values

Python float literals and arithmetic in the pipeline only ever involve small
decimal values, so they are modelled as exact rationals with an explicit
numerator/denominator representation whose operations are plain integer
arithmetic (kernel-reducible, unlike the opaque library rationals). -/

structure PyRat where
  num : ℤ
  den : ℕ
deriving DecidableEq, Repr

/-- Embed an integer as a model number. -/
def PyRat.ofInt (n : ℤ) : PyRat := ⟨n, 1⟩

/-- Value equality (cross multiplication), modelling Python ==. -/
def PyRat.valEq (a b : PyRat) : Bool := a.num * (b.den : ℤ) = b.num * (a.den : ℤ)

/-- Value order, modelling Python <. Denominators are kept positive. -/
def PyRat.lt (a b : PyRat) : Bool := a.num * (b.den : ℤ) < b.num * (a.den : ℤ)

def PyRat.add (a b : PyRat) : PyRat :=
  ⟨a.num * (b.den : ℤ) + b.num * (a.den : ℤ), a.den * b.den⟩

def PyRat.sub (a b : PyRat) : PyRat :=
  ⟨a.num * (b.den : ℤ) - b.num * (a.den : ℤ), a.den * b.den⟩

def PyRat.mul (a b : PyRat) : PyRat := ⟨a.num * b.num, a.den * b.den⟩

def PyRat.div (a b : PyRat) : PyRat :=
  if b.num = 0 then ⟨0, 1⟩
  else if 0 < b.num then ⟨a.num * (b.den : ℤ), a.den * b.num.natAbs⟩
  else ⟨-(a.num * (b.den : ℤ)), a.den * b.num.natAbs⟩

/-- Absolute value, modelling Python abs. -/
def PyRat.absVal (a : PyRat) : PyRat := ⟨|a.num|, a.den⟩

/-- Round a value to the nearest multiple of 1/scale (half away from zero is
irrelevant for the values arising here), as an integer count of 1/scale units:
floor of a * scale + 1/2, computed with integer floor division. -/
def PyRat.roundTo (a : PyRat) (scale : ℕ) : ℤ :=
  (2 * a.num * (scale : ℤ) + (a.den : ℤ)).fdiv (2 * (a.den : ℤ))

/-- Insert thousands separators into a little-endian digit list. -/
def commaRev : List Char → List Char
  | a :: b :: c :: d :: rest => a :: b :: c :: ',' :: commaRev (d :: rest)
  | l => l

/-- Decimal rendering of a natural number with thousands separators. -/
def natWithCommas (n : ℕ) : String :=
  String.mk ((commaRev (Nat.repr n).data.reverse).reverse)

/-- Model of the Python format spec {:,.2f}: two decimals, comma groups. -/
def formatC2 (a : PyRat) : String :=
  let n : ℤ := a.roundTo 100
  let m : ℕ := n.natAbs
  let frac : ℕ := m % 100
  (if n < 0 then "-" else "") ++ natWithCommas (m / 100) ++ "." ++
    (if frac < 10 then "0" ++ Nat.repr frac else Nat.repr frac)

/-- Model of the Python format spec {:.1f}: one decimal, no grouping. -/
def format1 (a : PyRat) : String :=
  let n : ℤ := a.roundTo 10
  let m : ℕ := n.natAbs
  (if n < 0 then "-" else "") ++ Nat.repr (m / 10) ++ "." ++ Nat.repr (m % 10)

/-- Fractional digits of num/den in [0,1), fuel-bounded (Python floats always
have a finite decimal expansion; seventeen digits suffice). -/
def fracDigitsGo (num : ℤ) (den : ℕ) : ℕ → String
  | 0 => ""
  | fuel + 1 =>
    let n10 := num * 10
    let d := n10.fdiv (den : ℤ)
    let r := n10 - d * (den : ℤ)
    if r = 0 then Nat.repr d.natAbs else Nat.repr d.natAbs ++ fracDigitsGo r den fuel

/-- Model of Python str applied to a float value (shortest decimal form,
always with at least one fractional digit, e.g. 500.0 or 1200.5). -/
def pyFloatRepr (a : PyRat) : String :=
  let n := |a.num|
  let ip := n.fdiv (a.den : ℤ)
  let r := n - ip * (a.den : ℤ)
  (if a.num < 0 then "-" else "") ++ Nat.repr ip.natAbs ++ "." ++ fracDigitsGo r a.den 17

/-- Digits of a captured numeric group as a natural number. -/
def digitsToNat (ds : List Char) : ℕ :=
  ds.foldl (fun acc c => 10 * acc + (c.toNat - '0'.toNat)) 0

/-- Model of float(captured.replace(",", "")) for a group captured by the
amount pattern \d+(,\d{3})*(\.\d{2})?. -/
def parseAmount (cap : List Char) : PyRat :=
  let cs := cap.filter (fun c => c ≠ ',')
  let ip := cs.takeWhile Char.isDigit
  let rest := cs.dropWhile Char.isDigit
  match rest with
  | '.' :: fs => ⟨((digitsToNat ip * 10 ^ fs.length + digitsToNat fs : ℕ) : ℤ), 10 ^ fs.length⟩
  | _ => ⟨((digitsToNat ip : ℕ) : ℤ), 1⟩

/-! ## Data model -/

/-- Result dictionary returned by every ledger operation of the external
Supabase business-logic collaborator. -/
structure BusinessResult where
  success : Bool
  message : String
deriving DecidableEq, Repr

/-- One effect performed by the pipeline against its external collaborators.
Every ledger mutation, aggregate read, history write and classifier call is
recorded in order in an effect trace. -/
inductive Effect where
  | addIncome (amount : PyRat) (description category source : String) (language : Option String)
  | addExpense (amount : PyRat) (description category source : String)
  | addInventory (product_name : String) (quantity : PyRat) (unit : String) (cost_per_unit : PyRat)
  | clearExpenses
  | clearIncome
  | clearChat
  | clearAll
  | saveChat (intent : String)
  | aiCall
  | readProfitLoss
  | readIncomeSummary
  | readExpenseSummary
  | readTodayExpenses
deriving DecidableEq, Repr

/-- One transaction dictionary inside the classifier result's transactions
list. Absent keys are none; Python truthiness of present values is tested by
the dispatch code. -/
structure TxIntent where
  intent : String
  amount : Option PyRat := none
  description : Option String := none
  category : Option String := none
  product_name : Option String := none
  quantity : Option PyRat := none
  unit : Option String := none
  cost_per_unit : Option PyRat := none
deriving DecidableEq, Repr

/-- One item dictionary of the confirm-items endpoint (and of the
clarification list). Absent keys are none; the endpoint substitutes the
defaults of the source. -/
structure ConfirmItem where
  category : Option String := none
  name : Option String := none
  quantity : Option PyRat := none
  amount : Option PyRat := none
  cost_per_unit : Option PyRat := none
  unit : Option String := none
deriving DecidableEq, Repr

/-- The data sub-dictionary of a legacy single-transaction classifier result
(and the items list of a clarification result). -/
structure LegacyData where
  amount : Option PyRat := none
  description : Option String := none
  category : Option String := none
  items : List ConfirmItem := []
deriving DecidableEq, Repr

/-- The weakly-typed classifier result dictionary. A missing transactions key
and a present-but-empty list are indistinguishable to the dispatch code
(both fail the Python truthiness test), so both are the empty list here. -/
structure IntentResult where
  intent : Option String := none
  action : Option String := none
  response_message : Option String := none
  confidence : Option PyRat := none
  is_business_related : Option Bool := none
  fallback_used : Option Bool := none
  transactions : List TxIntent := []
  data : Option LegacyData := none
  primary_intent : Option String := none
deriving DecidableEq, Repr

/-- The JSON-shaped response of the text endpoint. Fields that a given branch
of the source does not put into its dictionary keep their defaults. -/
structure TextResponse where
  success : Bool
  message : String
  intent : Option String := none
  confidence : Option PyRat := none
  is_business_related : Option Bool := none
  business_results : List BusinessResult := []
  transactions_processed : Option ℕ := none
  processed_count : Option ℕ := none
  fast_detection : Bool := false
  needs_clarification : Bool := false
  clarification_items : List ConfirmItem := []
  statusCode : ℕ := 200
deriving DecidableEq, Repr

/-- Outcome of the external classifier call executed on the daemon thread:
it finished with a parsed result, it was still running when the fifteen
second join elapsed, or it raised. -/
inductive ClassifierOutcome where
  | ok (result : IntentResult)
  | timeout
  | failed
deriving DecidableEq, Repr

/-- The external collaborators of one request, as an interface record: the
Supabase ledger operations (each returning a result dictionary), the ledger
aggregates they would report, and whether the chat-history sink raises. -/
structure LedgerIface where
  add_income : PyRat → String → String → String → Option String → BusinessResult
  add_expense : PyRat → String → String → String → BusinessResult
  add_inventory_item : String → PyRat → String → PyRat → BusinessResult
  clear_expenses : BusinessResult
  clear_income : BusinessResult
  clear_chat_history : BusinessResult
  clear_all_data : BusinessResult
  saveChatRaises : Bool
  total_income : PyRat
  total_expenses : PyRat
  plSuccess : Bool
  incomeSumSuccess : Bool
  incomeCount : ℕ
  expenseSumSuccess : Bool
  expenseCount : ℕ
  todayTotal : PyRat
  todayCount : ℕ
  todaySuccess : Bool

/-- A canonical always-succeeding collaborator record used to evaluate the
pipeline at concrete inputs. -/
def simpleLedger : LedgerIface where
  add_income := fun _ _ _ _ _ => ⟨true, "income recorded"⟩
  add_expense := fun _ _ _ _ => ⟨true, "expense recorded"⟩
  add_inventory_item := fun _ _ _ _ => ⟨true, "inventory recorded"⟩
  clear_expenses := ⟨true, "expenses cleared"⟩
  clear_income := ⟨true, "income cleared"⟩
  clear_chat_history := ⟨true, "chat cleared"⟩
  clear_all_data := ⟨true, "all cleared"⟩
  saveChatRaises := false
  total_income := PyRat.ofInt 0
  total_expenses := PyRat.ofInt 0
  plSuccess := true
  incomeSumSuccess := true
  incomeCount := 0
  expenseSumSuccess := true
  expenseCount := 0
  todayTotal := PyRat.ofInt 0
  todayCount := 0
  todaySuccess := true

/-! ## Authentication helper (get_user_id_from_auth) -/

/-- Embedding of get_user_id_from_auth. The Supabase token lookup is the
parameter resolveToken. A missing header, a header that is not a Bearer
token (the empty string fails the prefix test exactly as it fails Python
truthiness), or a token that does not resolve, all fall back to the fixed
user id default_user; the request is never rejected. -/
def get_user_id_from_auth (resolveToken : String → Option String)
    (authorization : Option String) : String :=
  match authorization with
  | some a =>
    if startsWithStr a "Bearer " then
      match resolveToken (String.mk ((splitSpaceList a.data).getD 1 [])) with
      | some uid => uid
      | none => "default_user"
    else "default_user"
  | none => "default_user"

/-! ## Fallback responder (_get_smart_fallback_response) -/

def greetingKws : List String := ["hi", "hello", "hey", "नमस्ते", "हैलो", "வணக்கம்", "ഹലോ"]

def helpKws : List String := ["help", "मदद", "உதவி", "സഹായം"]

def howKws : List String := ["how", "कैसे", "எப்படி", "എങ്ങനെ"]

def greetingResponse (language : String) : String :=
  if language = "en" then "Hello! I\x27m Sakhi, your business assistant. I can help you track income, expenses, and inventory. Try saying \x27income 500\x27 or \x27expense 200\x27!"
  else if language = "hi" then "नमस्ते! मैं सखी हूं, आपकी व्यापारिक सहायक। मैं आपकी आय, खर्च और इन्वेंटरी ट्रैक करने में मदद कर सकती हूं। \x27आय 500\x27 या \x27खर्च 200\x27 कहकर देखें!"
  else if language = "ta" then "வணக்கம்! நான் சகி, உங்கள் வணிக உதவியாளர். நான் உங்கள் வருமானம், செலவுகள் மற்றும் சரக்குகளை கண்காணிக்க உதவ முடியும். \x27வருமானம் 500\x27 அல்லது \x27செலவு 200\x27 என்று சொல்லி பாருங்கள்!"
  else if language = "ml" then "ഹലോ! ഞാൻ സഖി, നിങ്ങളുടെ ബിസിനസ് അസിസ്റ്റന്റ്. എനിക്ക് നിങ്ങളുടെ വരുമാനം, ചെലവുകൾ, ഇൻവെന്ററി ട്രാക്ക് ചെയ്യാൻ സഹായിക്കാം. \x27വരുമാനം 500\x27 അല്ലെങ്കിൽ \x27ചെലവ് 200\x27 എന്ന് പറഞ്ഞു നോക്കൂ!"
  else "Hello! I\x27m Sakhi, your business assistant. I can help you track income, expenses, and inventory!"

def helpResponse (language : String) : String :=
  if language = "en" then "I can help you with:\n• Track income: \x27income 500\x27\n• Track expenses: \x27expense 200\x27\n• Add inventory: \x27inventory rice 10kg\x27\n• Upload receipts for automatic processing\n• Clear data: \x27clear all\x27"
  else if language = "hi" then "मैं इनमें आपकी मदद कर सकती हूं:\n• आय ट्रैक करें: \x27आय 500\x27\n• खर्च ट्रैक करें: \x27खर्च 200\x27\n• इन्वेंटरी जोड़ें: \x27इन्वेंटरी चावल 10किलो\x27\n• रसीदें अपलोड करें\n• डेटा साफ करें: \x27सब साफ\x27"
  else if language = "ta" then "நான் இவற்றில் உங்களுக்கு உதவ முடியும்:\n• வருமானம் கண்காணிக்க: \x27வருமானம் 500\x27\n• செலவு கண்காணிக்க: \x27செலவு 200\x27\n• சரக்கு சேர்க்க: \x27சரக்கு அரிசி 10கிலோ\x27\n• ரசீதுகளை பதிவேற்றவும்\n• தரவு அழிக்க: \x27அனைத்தும் அழி\x27"
  else if language = "ml" then "എനിക്ക് ഇവയിൽ നിങ്ങളെ സഹായിക്കാൻ കഴിയും്:\n• വരുമാനം ട്രാക്ക്: \x27വരുമാനം 500\x27\n• ചെലവ് ട്രാക്ക്: \x27ചെലവ് 200\x27\n• ഇൻവെന്ററി ചേർക്കുക: \x27ഇൻവെന്ററി അരി 10കിലോ\x27\n• രസീതുകൾ അപ്‌ലോഡ് ചെയ്യുക\n• ഡാറ്റ മായ്ക്കുക: \x27എല്ലാം മായ്ക്കുക\x27"
  else "I can help you track income, expenses, inventory, and process receipts!"

def howResponse (language : String) : String :=
  if language = "en" then "You can interact with me in simple ways:\n• Say \x27income 1000\x27 to add income\n• Say \x27expense 500\x27 to add expense\n• Upload receipt photos for automatic processing\n• Ask me about your business data anytime!"
  else if language = "hi" then "आप मुझसे आसान तरीकों से बात कर सकते हैं:\n• \x27आय 1000\x27 कहें आय जोड़ने के लिए\n• \x27खर्च 500\x27 कहें खर्च जोड़ने के लिए\n• रसीद की फोटो अपलोड करें\n• कभी भी अपने व्यापार के बारे में पूछें!"
  else if language = "ta" then "நீங்கள் என்னுடன் எளிய வழிகளில் பேசலாம்:\n• வருமானம் சேர்க்க \x27வருமானம் 1000\x27 என்று சொல்லுங்கள்\n• செலவு சேர்க்க \x27செலவு 500\x27 என்று சொல்லுங்கள்\n• ரசீது புகைப்படங்களை பதிவேற்றவும்\n• எப்போது வேண்டுமானாலும் உங்கள் வணிகத்தைப் பற்றி கேளுங்கள்!"
  else if language = "ml" then "നിങ്ങൾക്ക് എന്നോട് ലളിതമായ രീതികളിൽ സംസാരിക്കാം:\n• വരുമാനം ചേർക്കാൻ \x27വരുമാനം 1000\x27 എന്ന് പറയുക\n• ചെലവ് ചേർക്കാൻ \x27ചെലവ് 500\x27 എന്ന് പറയുക\n• രസീത് ഫോട്ടോകൾ അപ്‌ലോഡ് ചെയ്യുക\n• എപ്പോൾ വേണമെങ്കിലും നിങ്ങളുടെ ബിസിനസിനെക്കുറിച്ച് ചോദിക്കുക!"
  else "You can say \x27income 1000\x27, \x27expense 500\x27, or upload receipt photos!"

def defaultFallbackResponse (language : String) : String :=
  if language = "en" then "I\x27m here to help with your business! Try: \x27income 500\x27, \x27expense 200\x27, or upload a receipt photo."
  else if language = "hi" then "मैं आपके व्यापार में मदद के लिए यहाँ हूँ! कोशिश करें: \x27आय 500\x27, \x27खर्च 200\x27, या रसीद की फोटो अपलोड करें।"
  else if language = "ta" then "நான் உங்கள் வணிகத்திற்கு உதவ இங்கே இருக்கிறேன்! முயற்சி செய்யுங்கள்: \x27வருமானம் 500\x27, \x27செலவு 200\x27, அல்லது ரசீது புகைப்படம் பதிவேற்றவும்."
  else if language = "ml" then "ഞാൻ നിങ്ങളുടെ ബിസിനസിനെ സഹായിക്കാൻ ഇവിടെയുണ്ട്! ശ്രമിക്കുക: \x27വരുമാനം 500\x27, \x27ചെലവ് 200\x27, അല്ലെങ്കിൽ രസീത് ഫോട്ടോ അപ്‌ലോഡ് ചെയ്യുക."
  else "I\x27m here to help with your business! Try: \x27income 500\x27, \x27expense 200\x27, or upload a receipt."

/-- The fixed confidence 0.8 of every fallback result. -/
def conf08 : PyRat := ⟨8, 10⟩

/-- The fixed confidence 0.98 of every fast-detection result. -/
def conf098 : PyRat := ⟨98, 100⟩

/-- The response text of _get_smart_fallback_response: the lowered, stripped
message is tested against the greeting, help and how keyword sets in that
order, the first match winning, with a default for everything else. -/
def smartFallbackText (message language : String) : String :=
  let message_lower := String.mk (trimChars (message.data.map Char.toLower))
  if containsAnyKw message_lower greetingKws then greetingResponse language
  else if containsAnyKw message_lower helpKws then helpResponse language
  else if containsAnyKw message_lower howKws then howResponse language
  else defaultFallbackResponse language

/-- Embedding of _get_smart_fallback_response: a pure function of message and
language, returning a conversational result with fixed confidence 0.8,
is_business_related true and fallback_used true. -/
def get_smart_fallback_response (message language : String) : IntentResult :=
  { intent := some "conversational"
  , response_message := some (smartFallbackText message language)
  , confidence := some conf08
  , is_business_related := some true
  , fallback_used := some true }

/-- The pool of the twenty canned fallback strings (four categories, four
named languages plus the English default of each category). -/
def fallbackPool : List String :=
  [ greetingResponse "en", greetingResponse "hi", greetingResponse "ta"
  , greetingResponse "ml", greetingResponse "xx"
  , helpResponse "en", helpResponse "hi", helpResponse "ta"
  , helpResponse "ml", helpResponse "xx"
  , howResponse "en", howResponse "hi", howResponse "ta"
  , howResponse "ml", howResponse "xx"
  , defaultFallbackResponse "en", defaultFallbackResponse "hi", defaultFallbackResponse "ta"
  , defaultFallbackResponse "ml", defaultFallbackResponse "xx" ]

/-! ## Classifier gateway (the threaded parse_intent call with timeout) -/

/-- The join timeout of the classifier thread, in seconds (thread.join(timeout=15)). -/
def aiTimeoutSeconds : ℕ := 15

/-- Embedding of the try block around ai_processor.parse_intent: the call runs
on a daemon thread joined with the fifteen second timeout. A thread still
alive after the join, and any exception raised by the call, both yield the
smart fallback response; only a completed thread yields the parsed result.
No exception escapes this block. -/
def parse_intent_with_timeout (outcome : ClassifierOutcome) (message language : String) :
    IntentResult × List Effect :=
  match outcome with
  | .ok r => (r, [.aiCall])
  | .timeout => (get_smart_fallback_response message language, [.aiCall])
  | .failed => (get_smart_fallback_response message language, [.aiCall])

/-! ## Fast pattern detection (_ultra_fast_transaction_detection)

The twelve regex patterns of the source share one shape: an intent keyword
and a captured amount group \d+(,\d{3})*(\.\d{2})?, optionally separated by
an is token (income/expense only) and an optional currency marker
rs\.?\s* or ₹\s*. They are embedded as a deterministic leftmost-match
scanner over the character list of the lowered, stripped message, with the
ordered-alternation backtracking the regex engine would perform. -/

inductive FKind where
  | income
  | expense
deriving DecidableEq, Repr

/-- One source pattern: keyword-first (keyword, then the amount) or
amount-first (the amount, then one of the keywords). -/
inductive FastPat where
  | kwFirst (keyword : String) (allowIs : Bool) (kind : FKind)
  | amtFirst (kws : List String) (kind : FKind)
deriving DecidableEq, Repr

def FastPat.kind : FastPat → FKind
  | .kwFirst _ _ k => k
  | .amtFirst _ k => k

/-- The ordered pattern table of _ultra_fast_transaction_detection. -/
def fastPatterns : List FastPat :=
  [ .kwFirst "income" true .income
  , .kwFirst "earned" false .income
  , .kwFirst "received" false .income
  , .kwFirst "आय" false .income
  , .kwFirst "कमाई" false .income
  , .kwFirst "expense" true .expense
  , .kwFirst "spent" false .expense
  , .kwFirst "paid" false .expense
  , .kwFirst "खर्च" false .expense
  , .kwFirst "खर्चा" false .expense
  , .amtFirst ["income", "आय"] .income
  , .amtFirst ["expense", "खर्च"] .expense ]

/-- Greedy \s* consumption. -/
def wsStar (cs : List Char) : List Char := cs.dropWhile isWs

/-- \s+ consumption: at least one whitespace character. -/
def wsPlus : List Char → Option (List Char)
  | [] => none
  | c :: rest => if isWs c then some ((c :: rest).dropWhile isWs) else none

/-- Greedy (,\d{3})* consumption, returning the consumed group characters
and the remainder. -/
def commaGroups : List Char → List Char × List Char
  | ',' :: a :: b :: c :: rest =>
    if a.isDigit && b.isDigit && c.isDigit then
      let (g, r) := commaGroups rest
      (',' :: a :: b :: c :: g, r)
    else ([], ',' :: a :: b :: c :: rest)
  | cs => ([], cs)

/-- Optional (\.\d{2})? consumption. -/
def decPart : List Char → List Char × List Char
  | '.' :: a :: b :: rest =>
    if a.isDigit && b.isDigit then (['.', a, b], rest) else ([], '.' :: a :: b :: rest)
  | cs => ([], cs)

/-- The amount group \d+(,\d{3})*(\.\d{2})? at the head of the input:
the captured characters and the remainder, or none if no digit starts here. -/
def amountAt (cs : List Char) : Option (List Char × List Char) :=
  let ds := cs.takeWhile Char.isDigit
  let r1 := cs.dropWhile Char.isDigit
  if ds.isEmpty then none
  else
    let (g, r2) := commaGroups r1
    let (d, r3) := decPart r2
    some (ds ++ g ++ d, r3)

/-- The rs\.?\s* currency branch followed by the amount group. -/
def rsBranch (cs : List Char) : Option (List Char × List Char) :=
  if ['r', 's'].isPrefixOf cs then
    let t := cs.drop 2
    (match t with
     | '.' :: t2 => amountAt (wsStar t2)
     | _ => none) <|> amountAt (wsStar t)
  else none

/-- The ₹\s* currency branch followed by the amount group. -/
def rupeeBranch (cs : List Char) : Option (List Char × List Char) :=
  if ['₹'].isPrefixOf cs then amountAt (wsStar (cs.drop 1)) else none

/-- The optional currency marker (?:rs\.?\s*|₹\s*)? followed by the amount
group, with the ordered-alternation backtracking of the regex engine. -/
def currencyAmount (cs : List Char) : Option (List Char × List Char) :=
  rsBranch cs <|> rupeeBranch cs <|> amountAt cs

/-- The optional (?:is\s+)? token followed by the currency marker and amount,
trying the is branch first and backtracking to the empty branch. -/
def isTokenTail (cs : List Char) : Option (List Char × List Char) :=
  (if ['i', 's'].isPrefixOf cs then
     match wsPlus (cs.drop 2) with
     | some cs2 => currencyAmount cs2
     | none => none
   else none) <|> currencyAmount cs

/-- The tail of a keyword-first pattern after its keyword: \s+, the optional
is token where the pattern has one, the optional currency marker, and the
captured amount group. -/
def kwTail (allowIs : Bool) (cs : List Char) : Option (List Char) :=
  match wsPlus cs with
  | none => none
  | some cs1 => ((if allowIs then isTokenTail cs1 else currencyAmount cs1).map Prod.fst)

/-- Leftmost search of a keyword-first pattern over the message. -/
def searchKwFirst (kw : List Char) (allowIs : Bool) : List Char → Option (List Char)
  | [] => none
  | c :: rest =>
    (if kw.isPrefixOf (c :: rest) then kwTail allowIs ((c :: rest).drop kw.length) else none)
    <|> searchKwFirst kw allowIs rest

/-- An amount-first pattern anchored at the current position: optional
currency marker, the captured amount group, \s+, then one of the keywords. -/
def amtFirstAt (kws : List String) (cs : List Char) : Option (List Char) :=
  match currencyAmount cs with
  | none => none
  | some (cap, rest) =>
    match wsPlus rest with
    | none => none
    | some r2 => if kws.any (fun k => k.data.isPrefixOf r2) then some cap else none

/-- Leftmost search of an amount-first pattern over the message. -/
def searchAmtFirst (kws : List String) : List Char → Option (List Char)
  | [] => none
  | c :: rest => amtFirstAt kws (c :: rest) <|> searchAmtFirst kws rest

/-- re.search of one pattern over the lowered message, composed with the
amount parse (comma removal and float conversion). -/
def patMatch (p : FastPat) (msgChars : List Char) : Option PyRat :=
  match p with
  | .kwFirst kw allowIs _ => (searchKwFirst kw.data allowIs msgChars).map parseAmount
  | .amtFirst kws _ => (searchAmtFirst kws msgChars).map parseAmount

/-- Outcome of the fast-detection helper: an exception escaped (only the
history sink can raise one here), no pattern fired, or an immediate
response. -/
inductive FastOut where
  | raised
  | noMatch
  | matched (r : TextResponse)
deriving DecidableEq, Repr

def fkindStr : FKind → String
  | .income => "income"
  | .expense => "expense"

/-- The loop body of _ultra_fast_transaction_detection over the ordered
pattern table: the first pattern that matches with a positive amount is
applied to the ledger at once; a non-positive amount, or a ledger result
without success, falls through to the next pattern; on success the history
sink is written (its exceptions are not among the caught ValueError/KeyError
and escape) and the fast response is returned. -/
def ultraFastGo (iface : LedgerIface) (language : String) (msgChars : List Char) :
    List FastPat → FastOut × List Effect
  | [] => (.noMatch, [])
  | p :: rest =>
    match patMatch p msgChars with
    | none => ultraFastGo iface language msgChars rest
    | some amount =>
      if (PyRat.ofInt 0).lt amount then
        match p.kind with
        | .income =>
          let desc := "Income - ₹" ++ pyFloatRepr amount
          let res := iface.add_income amount desc "General" "fast_detection" (some language)
          let eff := Effect.addIncome amount desc "General" "fast_detection" (some language)
          if res.success then
            if iface.saveChatRaises then (.raised, [eff])
            else
              (.matched { success := true, message := res.message, intent := some "income"
                        , confidence := some conf098, business_results := [res]
                        , transactions_processed := some 1, fast_detection := true }
              , [eff, .saveChat "income"])
          else
            ((ultraFastGo iface language msgChars rest).fst,
             eff :: (ultraFastGo iface language msgChars rest).snd)
        | .expense =>
          let desc := "Expense - ₹" ++ pyFloatRepr amount
          let res := iface.add_expense amount desc "General" "fast_detection"
          let eff := Effect.addExpense amount desc "General" "fast_detection"
          if res.success then
            if iface.saveChatRaises then (.raised, [eff])
            else
              (.matched { success := true, message := res.message, intent := some "expense"
                        , confidence := some conf098, business_results := [res]
                        , transactions_processed := some 1, fast_detection := true }
              , [eff, .saveChat "expense"])
          else
            ((ultraFastGo iface language msgChars rest).fst,
             eff :: (ultraFastGo iface language msgChars rest).snd)
      else ultraFastGo iface language msgChars rest

/-- Embedding of _ultra_fast_transaction_detection: lower and strip the
message, then scan the ordered pattern table. -/
def ultra_fast_transaction_detection (iface : LedgerIface)
    (message language : String) : FastOut × List Effect :=
  ultraFastGo iface language (trimChars (message.data.map Char.toLower)) fastPatterns

/-! ## Clear-command interpretation (the four phrase tables) -/

def clearExpensePhrases : List String :=
  ["clear expense", "delete expense", "remove expense", "reset expense",
   "make expense 0", "expense to 0", "खर्च साफ", "खर्च हटा", "खर्च शून्य"]

def clearIncomePhrases : List String :=
  ["clear income", "delete income", "remove income", "reset income",
   "make income 0", "income to 0", "आय साफ", "आय हटा", "आय शून्य"]

def clearChatPhrases : List String :=
  ["clear chat", "delete chat", "remove chat", "reset chat",
   "clear history", "delete history", "चैट साफ", "चैट हटा", "इतिहास साफ"]

def clearAllPhrases : List String :=
  ["clear all", "delete all", "reset all", "clear everything",
   "reset everything", "सब साफ", "सब हटा", "सब कुछ साफ"]

def clearedExpensesText (language : String) (iface : LedgerIface) : String :=
  if language = "en" then "✅ All expenses cleared successfully!"
  else if language = "hi" then "✅ सभी खर्च साफ कर दिए गए!"
  else if language = "ta" then "✅ அனைத்து செலவுகளும் அழிக்கப்பட்டன!"
  else if language = "ml" then "✅ എല്ലാ ചെലവുകളും മായ്ച്ചു!"
  else iface.clear_expenses.message

def clearedIncomeText (language : String) (iface : LedgerIface) : String :=
  if language = "en" then "✅ All income cleared successfully!"
  else if language = "hi" then "✅ सभी आय साफ कर दी गई!"
  else if language = "ta" then "✅ அனைத்து வருமானமும் அழிக்கப்பட்டது!"
  else if language = "ml" then "✅ എല്ലാ വരുമാനവും മായ്ച്ചു!"
  else iface.clear_income.message

def clearedChatText (language : String) (iface : LedgerIface) : String :=
  if language = "en" then "✅ Chat history cleared successfully!"
  else if language = "hi" then "✅ चैट हिस्ट्री साफ कर दी गई!"
  else if language = "ta" then "✅ அரட்டை வரலாறு அழிக்கப்பட்டது!"
  else if language = "ml" then "✅ ചാറ്റ് ചരിത്രം മായ്ച്ചു!"
  else iface.clear_chat_history.message

def clearedAllText (language : String) (iface : LedgerIface) : String :=
  if language = "en" then "✅ All data cleared successfully!"
  else if language = "hi" then "✅ सभी डेटा साफ कर दिया गया!"
  else if language = "ta" then "✅ அனைத்து தரவுகளும் வெற்றிகரமாக அழிக்கப்பட்டன!"
  else if language = "ml" then "✅ എല്ലാ ഡാറ്റയും വിജയകരമായി മായ്ച്ചു!"
  else iface.clear_all_data.message

/-! ## Transaction reconciliation (the transactions loop and legacy shapes) -/

/-- Python truthiness of an optional numeric field: present and nonzero. -/
def truthyAmt : Option PyRat → Bool
  | none => false
  | some a => !(a.valEq (PyRat.ofInt 0))

/-- Python truthiness of an optional string field: present and nonempty. -/
def truthyStr : Option String → Bool
  | none => false
  | some s => !s.data.isEmpty

/-- One iteration of the transactions loop: the branch guards of the source
(intent tag equality plus truthiness of amount, or of product_name and
quantity), the ledger call of the matching branch, and its effect. A
transaction matching no branch produces nothing at all. -/
def applyTx (iface : LedgerIface) (language : String) (t : TxIntent) :
    Option (BusinessResult × Effect) :=
  if t.intent = "income" && truthyAmt t.amount then
    let a := t.amount.getD (PyRat.ofInt 0)
    let d := t.description.getD "Income"
    let c := t.category.getD "General"
    some (iface.add_income a d c "text" (some language), .addIncome a d c "text" (some language))
  else if t.intent = "expense" && truthyAmt t.amount then
    let a := t.amount.getD (PyRat.ofInt 0)
    let d := t.description.getD "Expense"
    let c := t.category.getD "General"
    some (iface.add_expense a d c "text", .addExpense a d c "text")
  else if t.intent = "inventory" && truthyStr t.product_name && truthyAmt t.quantity then
    let pn := t.product_name.getD ""
    let q := t.quantity.getD (PyRat.ofInt 0)
    let u := t.unit.getD "pieces"
    let cpu := t.cost_per_unit.getD (PyRat.ofInt 0)
    some (iface.add_inventory_item pn q u cpu, .addInventory pn q u cpu)
  else none

/-- The transactions loop of process_text_message: items are attempted in
input order, each appending its ledger result to business_results when its
branch fires; items failing their guard are skipped silently. -/
def process_transactions (iface : LedgerIface) (language : String) (ts : List TxIntent) :
    List BusinessResult × List Effect :=
  (ts.filterMap (fun t => (applyTx iface language t).map Prod.fst),
   ts.filterMap (fun t => (applyTx iface language t).map Prod.snd))

/-! ## Ledger aggregates (external Supabase reads, modelled from the spec) -/

structure PLSummary where
  success : Bool
  total_income : PyRat
  total_expenses : PyRat
  net_profit : PyRat
  profit_margin_percentage : PyRat
deriving DecidableEq, Repr

/-- Modelled from the spec: get_profit_loss_summary lives in
supabase_business_logic.py, which is not among the sources; the spec defines
the LedgerAggregate as net profit = income − expenses and profit margin =
net profit / income, 0 when income is 0, here exposed as a percentage as the
pipeline reads it. -/
def get_profit_loss_summary (iface : LedgerIface) : PLSummary :=
  { success := iface.plSuccess
  , total_income := iface.total_income
  , total_expenses := iface.total_expenses
  , net_profit := iface.total_income.sub iface.total_expenses
  , profit_margin_percentage :=
      if iface.total_income.valEq (PyRat.ofInt 0) then PyRat.ofInt 0
      else ((iface.total_income.sub iface.total_expenses).div iface.total_income).mul
        (PyRat.ofInt 100) }

structure IncomeSummary where
  success : Bool
  total_income : PyRat
  count : ℕ
deriving DecidableEq, Repr

/-- Modelled from the spec: get_income_summary is a getAggregate read of the
external ledger (total and count of all income entries). -/
def get_income_summary (iface : LedgerIface) : IncomeSummary :=
  ⟨iface.incomeSumSuccess, iface.total_income, iface.incomeCount⟩

structure ExpenseSummary where
  success : Bool
  total_expenses : PyRat
  count : ℕ
deriving DecidableEq, Repr

/-- Modelled from the spec: get_expense_summary is a getAggregate read of the
external ledger (total and count of all expense entries). -/
def get_expense_summary (iface : LedgerIface) : ExpenseSummary :=
  ⟨iface.expenseSumSuccess, iface.total_expenses, iface.expenseCount⟩

/-- Modelled from the spec: get_today_expenses is a getAggregate read of the
external ledger scoped to the current day. -/
def get_today_expenses (iface : LedgerIface) : ExpenseSummary :=
  ⟨iface.todaySuccess, iface.todayTotal, iface.todayCount⟩

/-! ## Query responder (the else branch of process_text_message) -/

/-- Profit/loss keyword set of the direct-detection branch (the source tags
the sub-lists Hindi, Tamil and Malayalam; the spelling of each entry is kept
verbatim, including the mixed-script entry in the Tamil group and the money
words in the Malayalam group). -/
def profitLossKws : List String :=
  ["profit", "loss", "लाभ", "हानि", "नुकसान", "फायदा",
   "இலாபம்", "நஷ்டம்", "லாபம்", "नुकसान்",
   "ലാഭം", "നഷ്ടം", "കാശ്", "പണം"]

/-- Income keyword set of the direct-detection branch. -/
def incomeDirectKws : List String :=
  ["income", "revenue", "आय", "कमाई",
   "வருமானம்", "வருவாய்", "சம்பாதனை",
   "വരുമാനം", "സമ്പാദ്യം", "കമ്പനി"]

/-- Expense keyword set of the direct-detection branch (verbatim, including
the duplicated Devanagari entries the source places in the Tamil and
Malayalam groups). -/
def expenseDirectKws : List String :=
  ["expense", "spending", "खर्च", "खर्चा",
   "செலவு", "खर्चा", "व्यय",
   "ചെലവ്", "खर्चा", "പണം"]

/-- Profit/loss keyword set of the action-is-query branch. -/
def profitLossQueryKws : List String := ["profit", "loss", "लाभ", "हानि", "नुकसान", "फायदा"]

/-- Income keyword set of the action-is-query branch. -/
def incomeQueryKws : List String := ["income", "आय", "कमाई", "revenue"]

/-- Expense keyword set of the action-is-query branch. -/
def expenseQueryKws : List String := ["expense", "खर्च", "खर्चा", "spending"]

/-- The today qualifier test of the query branches: the English word or the
Hindi word, nothing else. -/
def hasTodayQualifier (q : String) : Bool :=
  containsSubstr q "today" || containsSubstr q "आज"

def plHindi (p : PLSummary) : String :=
  if (PyRat.ofInt 0).lt p.net_profit then
    "📊 आपका व्यापार लाभ में है!\n\n💰 कुल आय: ₹" ++ formatC2 p.total_income ++
    "\n💸 कुल खर्च: ₹" ++ formatC2 p.total_expenses ++
    "\n✅ शुद्ध लाभ: ₹" ++ formatC2 p.net_profit ++
    "\n📈 लाभ मार्जिन: " ++ format1 p.profit_margin_percentage ++
    "%\n\nबधाई हो! आपका व्यापार अच्छा चल रहा है। 🎉"
  else if p.net_profit.lt (PyRat.ofInt 0) then
    "📊 आपके व्यापार में हानि हो रही है।\n\n💰 कुल आय: ₹" ++ formatC2 p.total_income ++
    "\n💸 कुल खर्च: ₹" ++ formatC2 p.total_expenses ++
    "\n❌ शुद्ध हानि: ₹" ++ formatC2 p.net_profit.absVal ++
    "\n📉 हानि मार्जिन: " ++ format1 p.profit_margin_percentage.absVal ++
    "%\n\nसुझाव: खर्च कम करने या आय बढ़ाने के तरीकों पर विचार करें।"
  else
    "📊 आपका व्यापार ब्रेक-ईवन पर है।\n\n💰 कुल आय: ₹" ++ formatC2 p.total_income ++
    "\n💸 कुल खर्च: ₹" ++ formatC2 p.total_expenses ++
    "\n⚖️ शुद्ध परिणाम: ₹0\n\nआप न तो लाभ में हैं न हानि में।"

def plTamil (p : PLSummary) : String :=
  if (PyRat.ofInt 0).lt p.net_profit then
    "📊 உங்கள் வணிகம் லாபத்தில் உள்ளது!\n\n💰 மொத்த வருமானம்: ₹" ++ formatC2 p.total_income ++
    "\n💸 மொத்த செலவுகள்: ₹" ++ formatC2 p.total_expenses ++
    "\n✅ நிகர லாபம்: ₹" ++ formatC2 p.net_profit ++
    "\n📈 லாப விகிதம்: " ++ format1 p.profit_margin_percentage ++
    "%\n\nவாழ்த்துகள்! உங்கள் வணிகம் நன்றாக நடந்து கொண்டிருக்கிறது। 🎉"
  else if p.net_profit.lt (PyRat.ofInt 0) then
    "📊 உங்கள் வணிகத்தில் நஷ்டம் ஏற்பட்டுள்ளது।\n\n💰 மொத்த வருமானம்: ₹" ++ formatC2 p.total_income ++
    "\n💸 மொத்த செலவுகள்: ₹" ++ formatC2 p.total_expenses ++
    "\n❌ நிகர நஷ்டம்: ₹" ++ formatC2 p.net_profit.absVal ++
    "\n📉 நஷ்ட விகிதம்: " ++ format1 p.profit_margin_percentage.absVal ++
    "%\n\nபரிந்துரை: செலவுகளை குறைக்க அல்லது வருமானத்தை அதிகரிக்க வழிகளை பரிசீலிக்கவும்।"
  else
    "📊 உங்கள் வணிகம் பிரேக்-ஈவன் நிலையில் உள்ளது।\n\n💰 மொத்த வருமானம்: ₹" ++ formatC2 p.total_income ++
    "\n💸 மொத்த செலவுகள்: ₹" ++ formatC2 p.total_expenses ++
    "\n⚖️ நிகர முடிவு: ₹0\n\nநீங்கள் லாபத்திலும் இல்லை நஷ்டத்திலும் இல்லை।"

def plMalayalam (p : PLSummary) : String :=
  if (PyRat.ofInt 0).lt p.net_profit then
    "📊 നിങ്ങളുടെ ബിസിനസ്സ് ലാഭത്തിലാണ്!\n\n💰 മൊത്തം വരുമാനം: ₹" ++ formatC2 p.total_income ++
    "\n💸 മൊത്തം ചെലവുകൾ: ₹" ++ formatC2 p.total_expenses ++
    "\n✅ നെറ്റ് ലാഭം: ₹" ++ formatC2 p.net_profit ++
    "\n📈 ലാഭ മാർജിൻ: " ++ format1 p.profit_margin_percentage ++
    "%\n\nഅഭിനന്ദനങ്ങൾ! നിങ്ങളുടെ ബിസിനസ്സ് നന്നായി പോകുന്നു। 🎉"
  else if p.net_profit.lt (PyRat.ofInt 0) then
    "📊 നിങ്ങളുടെ ബിസിനസ്സിൽ നഷ്ടം സംഭവിച്ചിരിക്കുന്നു।\n\n💰 മൊത്തം വരുമാനം: ₹" ++ formatC2 p.total_income ++
    "\n💸 മൊത്തം ചെലവുകൾ: ₹" ++ formatC2 p.total_expenses ++
    "\n❌ നെറ്റ് നഷ്ടം: ₹" ++ formatC2 p.net_profit.absVal ++
    "\n📉 നഷ്ട മാർജിൻ: " ++ format1 p.profit_margin_percentage.absVal ++
    "%\n\nനിർദ്ദേശം: ചെലവുകൾ കുറയ്ക്കാനോ വരുമാനം വർദ്ധിപ്പിക്കാനോ ഉള്ള വഴികൾ പരിഗണിക്കുക।"
  else
    "📊 നിങ്ങളുടെ ബിസിനസ്സ് ബ്രേക്ക്-ഈവൻ നിലയിലാണ്।\n\n💰 മൊത്തം വരുമാനം: ₹" ++ formatC2 p.total_income ++
    "\n💸 മൊത്തം ചെലവുകൾ: ₹" ++ formatC2 p.total_expenses ++
    "\n⚖️ നെറ്റ് ഫലം: ₹0\n\nനിങ്ങൾ ലാഭത്തിലോ നഷ്ടത്തിലോ അല്ല।"

def plEnglish (p : PLSummary) : String :=
  if (PyRat.ofInt 0).lt p.net_profit then
    "📊 Your business is profitable!\n\n💰 Total Income: ₹" ++ formatC2 p.total_income ++
    "\n💸 Total Expenses: ₹" ++ formatC2 p.total_expenses ++
    "\n✅ Net Profit: ₹" ++ formatC2 p.net_profit ++
    "\n📈 Profit Margin: " ++ format1 p.profit_margin_percentage ++
    "%\n\nCongratulations! Your business is doing well. 🎉"
  else if p.net_profit.lt (PyRat.ofInt 0) then
    "📊 Your business is showing a loss.\n\n💰 Total Income: ₹" ++ formatC2 p.total_income ++
    "\n💸 Total Expenses: ₹" ++ formatC2 p.total_expenses ++
    "\n❌ Net Loss: ₹" ++ formatC2 p.net_profit.absVal ++
    "\n📉 Loss Margin: " ++ format1 p.profit_margin_percentage.absVal ++
    "%\n\nSuggestion: Consider ways to reduce expenses or increase income."
  else
    "📊 Your business is at break-even.\n\n💰 Total Income: ₹" ++ formatC2 p.total_income ++
    "\n💸 Total Expenses: ₹" ++ formatC2 p.total_expenses ++
    "\n⚖️ Net Result: ₹0\n\nYou\x27re neither in profit nor loss."

/-- The language dispatch of the direct profit/loss branch (four languages
plus the English default). -/
def renderProfitLoss (language : String) (p : PLSummary) : String :=
  if language = "hi" then plHindi p
  else if language = "ta" then plTamil p
  else if language = "ml" then plMalayalam p
  else plEnglish p

/-- The language dispatch of the action-is-query profit/loss branch (Hindi
or the English default only). -/
def renderProfitLossQueryBranch (language : String) (p : PLSummary) : String :=
  if language = "hi" then plHindi p else plEnglish p

def plTrouble (language : String) : String :=
  if language = "hi" then "मुझे आपके profit और loss की जानकारी पाने में समस्या हो रही है। कृपया कुछ income और expense डेटा जोड़ें।"
  else "I\x27m having trouble getting your profit and loss information. Please add some income and expense data first."

def incomeTotalMsg (language : String) (total : PyRat) (count : ℕ) : String :=
  if language = "hi" then
    "💰 आपकी कुल आय: ₹" ++ formatC2 total ++ "\n📊 कुल लेन-देन: " ++ Nat.repr count ++
    "\n\nयह आपके सभी income entries का योग है।"
  else
    "💰 Your total income: ₹" ++ formatC2 total ++ "\n📊 Total transactions: " ++ Nat.repr count ++
    "\n\nThis is the sum of all your income entries."

def incomeNoneMsg (language : String) : String :=
  if language = "hi" then "अभी तक कोई आय दर्ज नहीं की गई है। कृपया कुछ income entries जोड़ें।"
  else "No income recorded yet. Please add some income entries."

def expenseTotalMsg (language : String) (total : PyRat) (count : ℕ) : String :=
  if language = "hi" then
    "💸 आपका कुल खर्च: ₹" ++ formatC2 total ++ "\n📊 कुल लेन-देन: " ++ Nat.repr count ++
    "\n\nयह आपके सभी expense entries का योग है।"
  else
    "💸 Your total expenses: ₹" ++ formatC2 total ++ "\n📊 Total transactions: " ++ Nat.repr count ++
    "\n\nThis is the sum of all your expense entries."

def expenseNoneMsg (language : String) : String :=
  if language = "hi" then "अभी तक कोई खर्च दर्ज नहीं किया गया है। कृपया कुछ expense entries जोड़ें।"
  else "No expenses recorded yet. Please add some expense entries."

def todayExpenseMsg (language : String) (total : PyRat) (count : ℕ) : String :=
  if language = "hi" then
    "आज का कुल खर्च ₹" ++ pyFloatRepr total ++ " है। " ++ Nat.repr count ++ " लेन-देन हुए हैं।"
  else
    "Today\x27s total expense is ₹" ++ pyFloatRepr total ++ ". You have " ++ Nat.repr count ++
    " transactions."

def todayExpenseNoneMsg (language : String) : String :=
  if language = "hi" then "आज कोई खर्च नहीं हुआ है।" else "No expenses recorded for today."

/-- Embedding of the query-handling else branch: the direct keyword
re-detection over the raw lowered message runs first, with the profit/loss
keyword set before the income set before the expense set (the income and
expense direct branches stand down when a today qualifier is present); only
then does the classifier-declared action route the remaining query shapes,
and the final fallback echoes the classifier text. Returns the response
text and the aggregate reads performed. -/
def answer_query (iface : LedgerIface) (ir : IntentResult) (message language : String) :
    String × List Effect :=
  let query_message := lowerString message
  if containsAnyKw query_message profitLossKws then
    let p := get_profit_loss_summary iface
    (if p.success then renderProfitLoss language p else plTrouble language, [.readProfitLoss])
  else if containsAnyKw query_message incomeDirectKws && !hasTodayQualifier query_message then
    let s := get_income_summary iface
    (if s.success && (PyRat.ofInt 0).lt s.total_income then
       incomeTotalMsg language s.total_income s.count
     else incomeNoneMsg language, [.readIncomeSummary])
  else if containsAnyKw query_message expenseDirectKws && !hasTodayQualifier query_message then
    let s := get_expense_summary iface
    (if s.success && (PyRat.ofInt 0).lt s.total_expenses then
       expenseTotalMsg language s.total_expenses s.count
     else expenseNoneMsg language, [.readExpenseSummary])
  else if ir.action = some "query" then
    if containsSubstr query_message "expense" && hasTodayQualifier query_message then
      let t := get_today_expenses iface
      (if t.success && decide (0 < t.count) then
         todayExpenseMsg language t.total_expenses t.count
       else todayExpenseNoneMsg language, [.readTodayExpenses])
    else if containsSubstr query_message "income" && hasTodayQualifier query_message then
      (ir.response_message.getD "Income query functionality coming soon!", [])
    else if containsAnyKw query_message profitLossQueryKws then
      let p := get_profit_loss_summary iface
      (if p.success then renderProfitLossQueryBranch language p else plTrouble language,
       [.readProfitLoss])
    else if containsAnyKw query_message incomeQueryKws && !hasTodayQualifier query_message then
      let s := get_income_summary iface
      (if s.success && (PyRat.ofInt 0).lt s.total_income then
         incomeTotalMsg language s.total_income s.count
       else incomeNoneMsg language, [.readIncomeSummary])
    else if containsAnyKw query_message expenseQueryKws && !hasTodayQualifier query_message then
      let s := get_expense_summary iface
      (if s.success && (PyRat.ofInt 0).lt s.total_expenses then
         expenseTotalMsg language s.total_expenses s.count
       else expenseNoneMsg language, [.readExpenseSummary])
    else (ir.response_message.getD "I\x27m here to help with your business needs!", [])
  else (ir.response_message.getD "I\x27m here to help with your business needs!", [])

/-! ## The text endpoint (process_text_message) -/

/-- The structured failure response of the outer exception handler of the
text endpoint (HTTP 500, success false, localized apology). -/
def failureResponse (language : String) : TextResponse :=
  { success := false
  , message :=
      if language = "hi" then "माफ़ करें, कुछ गलत हो गया। कृपया दोबारा कोशिश करें।"
      else "Sorry, something went wrong. Please try again."
  , statusCode := 500 }

/-- The transaction/legacy/query dispatch after the conversational and
clarification early returns: the response text, the collected
business_results and the ledger effects. response_message stays the empty
string of its initialization when a legacy branch fires without an amount. -/
def mainDispatch (iface : LedgerIface) (ir : IntentResult) (message language : String) :
    String × List BusinessResult × List Effect :=
  if ir.transactions ≠ [] then
    let (rs, tr) := process_transactions iface language ir.transactions
    (if rs ≠ [] then ir.response_message.getD "Transactions processed successfully!"
     else ir.response_message.getD "No valid transactions found.", rs, tr)
  else if ir.intent = some "income" ∧ ir.action = some "add" then
    let d := ir.data.getD {}
    if truthyAmt d.amount then
      let a := d.amount.getD (PyRat.ofInt 0)
      let de := d.description.getD "Income"
      let c := d.category.getD "General"
      let r := iface.add_income a de c "text" (some language)
      (r.message, [r], [.addIncome a de c "text" (some language)])
    else ("", [], [])
  else if ir.intent = some "expense" ∧ ir.action = some "add" then
    let d := ir.data.getD {}
    if truthyAmt d.amount then
      let a := d.amount.getD (PyRat.ofInt 0)
      let de := d.description.getD "Expense"
      let c := d.category.getD "General"
      let r := iface.add_expense a de c "text"
      (r.message, [r], [.addExpense a de c "text"])
    else ("", [], [])
  else
    let (rm, tr) := answer_query iface ir message language
    (rm, [], tr)

/-- The final intent key of the response dictionary: primary_intent when
present, else intent, else general. -/
def finalIntent (ir : IntentResult) : String :=
  ir.primary_intent.getD (ir.intent.getD "general")

/-- The part of the endpoint body after the classifier result is available:
the conversational/off-topic and item-clarification early returns (each
writing the history sink first), then the transaction/legacy/query dispatch
followed by the history write and the final JSON response. A raise from the
unguarded history sink falls through to the outer handler and becomes the
structured failure response. -/
def afterClassifier (iface : LedgerIface) (ir : IntentResult) (message language : String) :
    TextResponse × List Effect :=
  if ir.intent = some "conversational" ∨ ir.intent = some "off_topic" then
    let rm := ir.response_message.getD "I\x27m here to help with your business!"
    if iface.saveChatRaises then (failureResponse language, [])
    else
      ({ success := true, message := rm, intent := ir.intent
       , confidence := some (ir.confidence.getD conf08)
       , is_business_related := some (ir.is_business_related.getD true) }
      , [.saveChat (ir.intent.getD "conversational")])
  else if ir.intent = some "item_clarification" then
    let items := (ir.data.getD {}).items
    let rm := ir.response_message.getD "Please review and confirm the categorization:"
    if iface.saveChatRaises then (failureResponse language, [])
    else
      ({ success := true, message := rm, intent := some "item_clarification"
       , confidence := some (ir.confidence.getD conf08)
       , needs_clarification := true, clarification_items := items }
      , [.saveChat "item_clarification"])
  else
    let (rm, rs, tr) := mainDispatch iface ir message language
    if iface.saveChatRaises then (failureResponse language, tr)
    else
      ({ success := true, message := rm, intent := some (finalIntent ir)
       , confidence := some (ir.confidence.getD (PyRat.ofInt 0))
       , business_results := rs, transactions_processed := some rs.length }
      , tr ++ [.saveChat (finalIntent ir)])

/-- The endpoint body from the clear-command checks onward: the four phrase
tables are tested in order on the lowered message (in every chat mode), each
match clearing the ledger at once and returning; otherwise the classifier
gateway runs and its result is dispatched. -/
def processAfterFast (iface : LedgerIface) (cls : ClassifierOutcome)
    (message language : String) : TextResponse × List Effect :=
  let message_lower := lowerString message
  if containsAnyKw message_lower clearExpensePhrases then
    ({ success := true, message := clearedExpensesText language iface
     , intent := some "expense_clear", business_results := [iface.clear_expenses] }
    , [.clearExpenses])
  else if containsAnyKw message_lower clearIncomePhrases then
    ({ success := true, message := clearedIncomeText language iface
     , intent := some "income_clear", business_results := [iface.clear_income] }
    , [.clearIncome])
  else if containsAnyKw message_lower clearChatPhrases then
    ({ success := true, message := clearedChatText language iface
     , intent := some "chat_clear", business_results := [iface.clear_chat_history] }
    , [.clearChat])
  else if containsAnyKw message_lower clearAllPhrases then
    ({ success := true, message := clearedAllText language iface
     , intent := some "all_clear", business_results := [iface.clear_all_data] }
    , [.clearAll])
  else
    let (ir, tr0) := parse_intent_with_timeout cls message language
    let (resp, tr1) := afterClassifier iface ir message language
    (resp, tr0 ++ tr1)

/-- Embedding of process_text_message: the fast pattern detection runs only
in business mode (a raise inside it reaches the outer handler); everything
else — including the clear-command interpretation — runs in every mode. -/
def process_text_message (iface : LedgerIface) (cls : ClassifierOutcome)
    (message language chat_mode : String) : TextResponse × List Effect :=
  if chat_mode = "business" then
    match ultra_fast_transaction_detection iface message language with
    | (.raised, tr) => (failureResponse language, tr)
    | (.matched r, tr) => (r, tr)
    | (.noMatch, tr) =>
      let (r2, tr2) := processAfterFast iface cls message language
      (r2, tr ++ tr2)
  else processAfterFast iface cls message language

/-! ## The confirm-items endpoint (confirm_items) -/

/-- One iteration of the confirmed-items loop: defaults are substituted for
missing keys, then the category selects the ledger operation; quantity and
amount are converted with float() and applied without any positivity or
nonzero validation. Unknown categories produce nothing. -/
def confirmOne (iface : LedgerIface) (item : ConfirmItem) :
    Option (BusinessResult × Effect) :=
  let category := item.category.getD "expense"
  let name := item.name.getD "Unknown Item"
  let quantity := item.quantity.getD (PyRat.ofInt 1)
  let amount := item.amount.getD (PyRat.ofInt 0)
  let cost_per_unit := item.cost_per_unit.getD (PyRat.ofInt 0)
  let unit := item.unit.getD "pieces"
  let desc := if (PyRat.ofInt 1).lt quantity then pyFloatRepr quantity ++ "x " ++ name else name
  if category = "income" then
    some (iface.add_income amount desc "sales" "user_confirmed" none,
          .addIncome amount desc "sales" "user_confirmed" none)
  else if category = "expense" then
    some (iface.add_expense amount desc "general" "user_confirmed",
          .addExpense amount desc "general" "user_confirmed")
  else if category = "inventory" then
    some (iface.add_inventory_item name quantity unit cost_per_unit,
          .addInventory name quantity unit cost_per_unit)
  else none

/-- Embedding of the confirm-items endpoint: every confirmed item is applied
directly (no fast path, no classifier), the summary counts the successes,
and the history sink is written last (a raise there reaches the endpoint's
handler, whose failure text carries the exception string, abstracted here). -/
def confirm_items (iface : LedgerIface) (items : List ConfirmItem) :
    TextResponse × List Effect :=
  let applied := items.filterMap (confirmOne iface)
  let business_results := applied.map Prod.fst
  let tr := applied.map Prod.snd
  let success_count := (business_results.filter (fun r => r.success)).length
  let summary := "✅ Successfully processed " ++ Nat.repr success_count ++ " items!"
  if iface.saveChatRaises then
    ({ success := false, message := "Error processing items: ", statusCode := 500 }, tr)
  else
    ({ success := true, message := summary, business_results := business_results
     , processed_count := some success_count }, tr ++ [.saveChat "item_confirmation"])

/-- The concrete ledger state with total income 1000 and total expenses 400
used for the query-responder examples. -/
def iface1000 : LedgerIface :=
  { simpleLedger with total_income := ⟨1000, 1⟩, total_expenses := ⟨400, 1⟩ }

/-! ## Guard predicates used by the validation theorems -/

/-- Every fast-path ledger mutation carries a strictly positive amount. -/
def fastOpOk : Effect → Bool
  | .addIncome a _ _ _ _ => (PyRat.ofInt 0).lt a
  | .addExpense a _ _ _ => (PyRat.ofInt 0).lt a
  | _ => true

/-- Every batch-path ledger mutation carries a nonzero amount (or quantity);
negative values are not excluded by the truthiness guards of the source. -/
def batchOpOk : Effect → Bool
  | .addIncome a _ _ _ _ => !(a.valEq (PyRat.ofInt 0))
  | .addExpense a _ _ _ => !(a.valEq (PyRat.ofInt 0))
  | .addInventory _ q _ _ => !(q.valEq (PyRat.ofInt 0))
  | _ => true

lemma ultraFastGo_all_positive (iface : LedgerIface) (language : String)
    (msgChars : List Char) :
    ∀ ps : List FastPat, ((ultraFastGo iface language msgChars ps).snd.all fastOpOk) = true := by
  intro ps
  induction ps with
  | nil => rfl
  | cons p rest ih =>
    rw [ultraFastGo]
    cases hm : patMatch p msgChars with
    | none => simpa [hm] using ih
    | some a =>
      simp only [hm]
      by_cases hlt : (PyRat.ofInt 0).lt a = true
      · simp only [hlt, if_true]
        cases p.kind with
        | income =>
          by_cases hs : (iface.add_income a ("Income - ₹" ++ pyFloatRepr a) "General"
              "fast_detection" (some language)).success = true
          · by_cases hr : iface.saveChatRaises = true <;>
              simp [hs, hr, List.all, fastOpOk, hlt]
          · simp only [Bool.not_eq_true] at hs
            simp [hs, List.all, fastOpOk, hlt, ih]
        | expense =>
          by_cases hs : (iface.add_expense a ("Expense - ₹" ++ pyFloatRepr a) "General"
              "fast_detection").success = true
          · by_cases hr : iface.saveChatRaises = true <;>
              simp [hs, hr, List.all, fastOpOk, hlt]
          · simp only [Bool.not_eq_true] at hs
            simp [hs, List.all, fastOpOk, hlt, ih]
      · simp only [Bool.not_eq_true] at hlt
        simpa [hlt] using ih

lemma applyTx_nonzero (iface : LedgerIface) (language : String) (t : TxIntent)
    (r : BusinessResult) (e : Effect) (h : applyTx iface language t = some (r, e)) :
    batchOpOk e = true := by
  unfold applyTx at h
  split_ifs at h with h1 h2 h3
  · simp only [Bool.and_eq_true] at h1
    obtain ⟨-, hamt⟩ := h1
    cases ha : t.amount with
    | none => rw [ha] at hamt; exact absurd hamt (by simp [truthyAmt])
    | some a =>
      rw [ha] at hamt
      simp only [truthyAmt] at hamt
      simp only [Option.some.injEq, Prod.mk.injEq] at h
      rw [← h.2, batchOpOk, ha]
      simpa using hamt
  · simp only [Bool.and_eq_true] at h2
    obtain ⟨-, hamt⟩ := h2
    cases ha : t.amount with
    | none => rw [ha] at hamt; exact absurd hamt (by simp [truthyAmt])
    | some a =>
      rw [ha] at hamt
      simp only [truthyAmt] at hamt
      simp only [Option.some.injEq, Prod.mk.injEq] at h
      rw [← h.2, batchOpOk, ha]
      simpa using hamt
  · simp only [Bool.and_eq_true] at h3
    obtain ⟨-, hq⟩ := h3
    cases ha : t.quantity with
    | none => rw [ha] at hq; exact absurd hq (by simp [truthyAmt])
    | some q =>
      rw [ha] at hq
      simp only [truthyAmt] at hq
      simp only [Option.some.injEq, Prod.mk.injEq] at h
      rw [← h.2, batchOpOk, ha]
      simpa using hq

/-! ## Claim theorems -/

/-- Claim C1, counterexample: a batch of three transaction intents whose
second item fails validation (an income with no amount) yields two outcomes,
not the three the claim demands — the failing item produces no outcome at
all, although items one and three are both applied. -/
theorem C1_counterexample :
    (process_transactions simpleLedger "en"
      [ { intent := "income", amount := some ⟨100, 1⟩ }
      , { intent := "income" }
      , { intent := "expense", amount := some ⟨50, 1⟩ } ]).fst.length = 2 ∧
    ¬ (process_transactions simpleLedger "en"
      [ { intent := "income", amount := some ⟨100, 1⟩ }
      , { intent := "income" }
      , { intent := "expense", amount := some ⟨50, 1⟩ } ]).fst.length = 3 ∧
    (process_transactions simpleLedger "en"
      [ { intent := "income", amount := some ⟨100, 1⟩ }
      , { intent := "income" }
      , { intent := "expense", amount := some ⟨50, 1⟩ } ]).snd =
      [ Effect.addIncome ⟨100, 1⟩ "Income" "General" "text" (some "en")
      , Effect.addExpense ⟨50, 1⟩ "Expense" "General" "text" ] := by
  refine ⟨by decide, by decide, by decide⟩

/-- Claim C1, amended: the batch loop yields one outcome per item that passes
its branch guard, in input order; an item failing validation yields no
outcome of its own but does not prevent any later item from being attempted
— the outcomes and effects of a batch containing an invalid item are exactly
those of the surrounding valid items, concatenated in order. -/
theorem C1_amended_batch_partial_failure (iface : LedgerIface) (language : String)
    (xs ys : List TxIntent) (bad : TxIntent)
    (h : applyTx iface language bad = none) :
    process_transactions iface language (xs ++ bad :: ys) =
      ((process_transactions iface language xs).fst ++ (process_transactions iface language ys).fst,
       (process_transactions iface language xs).snd ++ (process_transactions iface language ys).snd) := by
  simp [process_transactions, List.filterMap_append, List.filterMap_cons, h]

/-- Witness for C1: the three-item batch with the invalid middle item
evaluates to the concatenation of the outcomes of items one and three. -/
theorem C1_witness :
    process_transactions simpleLedger "en"
      [ { intent := "income", amount := some ⟨100, 1⟩ }
      , { intent := "income" }
      , { intent := "expense", amount := some ⟨50, 1⟩ } ] =
      ((process_transactions simpleLedger "en" [{ intent := "income", amount := some ⟨100, 1⟩ }]).fst ++
        (process_transactions simpleLedger "en" [{ intent := "expense", amount := some ⟨50, 1⟩ }]).fst,
       (process_transactions simpleLedger "en" [{ intent := "income", amount := some ⟨100, 1⟩ }]).snd ++
        (process_transactions simpleLedger "en" [{ intent := "expense", amount := some ⟨50, 1⟩ }]).snd) :=
  C1_amended_batch_partial_failure simpleLedger "en"
    [{ intent := "income", amount := some ⟨100, 1⟩ }]
    [{ intent := "expense", amount := some ⟨50, 1⟩ }]
    { intent := "income" } (by decide)

/-- Claim C2, counterexample: in non-business mode ("general"), a clear
command still mutates the ledger before the classifier gateway is ever
invoked — the whole administrative command interpreter is not skipped, only
the fast pattern matcher is. -/
theorem C2_counterexample :
    Effect.clearExpenses ∈
      (process_text_message simpleLedger (.ok {}) "please clear expense now" "en" "general").snd ∧
    Effect.aiCall ∉
      (process_text_message simpleLedger (.ok {}) "please clear expense now" "en" "general").snd := by
  refine ⟨by decide, by decide⟩

/-- Claim C2, amended: in non-business mode the pipeline skips only the fast
pattern detection (the whole request is handled by the stage that starts at
the clear-command checks), and the clear-command interpreter still runs
there, so a clear-expenses phrase still clears the ledger in any mode. -/
theorem C2_amended_nonbusiness_mode (iface : LedgerIface) (cls : ClassifierOutcome)
    (message language chat_mode : String) (h : chat_mode ≠ "business") :
    process_text_message iface cls message language chat_mode =
      processAfterFast iface cls message language ∧
    (containsAnyKw (lowerString message) clearExpensePhrases = true →
      Effect.clearExpenses ∈ (process_text_message iface cls message language chat_mode).snd) := by
  constructor
  · unfold process_text_message
    rw [if_neg h]
  · intro hc
    unfold process_text_message
    rw [if_neg h]
    unfold processAfterFast
    simp [hc]

/-- Witness for C2: the amended theorem applied at the concrete non-business
request carrying a clear-expenses phrase. -/
theorem C2_witness :
    process_text_message simpleLedger (.ok {}) "clear expense" "en" "general" =
      processAfterFast simpleLedger (.ok {}) "clear expense" "en" ∧
    (containsAnyKw (lowerString "clear expense") clearExpensePhrases = true →
      Effect.clearExpenses ∈
        (process_text_message simpleLedger (.ok {}) "clear expense" "en" "general").snd) :=
  C2_amended_nonbusiness_mode simpleLedger (.ok {}) "clear expense" "en" "general" (by decide)

/-- Claim C3, counterexample: a zero amount reaches the ledger through the
confirm-items path (no validation at all there), and a negative amount
reaches the ledger through the classifier batch path (its truthiness guard
only excludes missing and zero amounts) — so the claim that every path
rejects zero and negative amounts before any ledger operation is false. -/
theorem C3_counterexample :
    Effect.addExpense ⟨0, 1⟩ "Unknown Item" "general" "user_confirmed" ∈
      (confirm_items simpleLedger [{ category := some "expense", amount := some ⟨0, 1⟩ }]).snd ∧
    Effect.addIncome ⟨-5, 1⟩ "Income" "General" "text" (some "en") ∈
      (process_transactions simpleLedger "en"
        [{ intent := "income", amount := some ⟨-5, 1⟩ }]).snd := by
  refine ⟨by decide, by decide⟩

/-- Claim C3, amended: the fast pattern path rejects every non-positive
amount before any ledger operation (each of its ledger mutations carries a
strictly positive amount), and the classifier batch path rejects missing and
zero amounts and quantities (each of its ledger mutations carries a nonzero
value) — but negative batch values and all confirm-items amounts pass
unvalidated. -/
theorem C3_amended_validation :
    (∀ (iface : LedgerIface) (message language : String),
      ((ultra_fast_transaction_detection iface message language).snd.all fastOpOk) = true) ∧
    (∀ (iface : LedgerIface) (language : String) (ts : List TxIntent),
      ((process_transactions iface language ts).snd.all batchOpOk) = true) := by
  constructor
  · intro iface message language
    exact ultraFastGo_all_positive iface language _ fastPatterns
  · intro iface language ts
    rw [process_transactions]
    rw [List.all_eq_true]
    intro e he
    obtain ⟨t, -, ht⟩ := List.mem_filterMap.mp he
    cases hap : applyTx iface language t with
    | none => rw [hap] at ht; exact absurd ht (by simp)
    | some pr =>
      rw [hap] at ht
      simp only [Option.map_some', Option.some.injEq] at ht
      rw [← ht]
      exact applyTx_nonzero iface language t pr.1 pr.2 (by rw [hap])

/-- Claim C4: whenever the classifier thread is still running when the
fifteen second join elapses, or the classifier call raised, the pipeline
uses the smart fallback response, whose confidence is the fixed 0.8 and
whose fallback_used flag is true; no exception escapes the gateway (the
embedding is a total function of the outcome). -/
theorem C4_timeout_fallback (message language : String) (cls : ClassifierOutcome)
    (h : cls = ClassifierOutcome.timeout ∨ cls = ClassifierOutcome.failed) :
    (parse_intent_with_timeout cls message language).fst =
      get_smart_fallback_response message language ∧
    (parse_intent_with_timeout cls message language).fst.confidence = some conf08 ∧
    (parse_intent_with_timeout cls message language).fst.fallback_used = some true ∧
    aiTimeoutSeconds = 15 := by
  rcases h with rfl | rfl <;> exact ⟨rfl, rfl, rfl, rfl⟩

/-- Witness for C4: the gateway at a concrete timed-out call. -/
theorem C4_witness :
    (parse_intent_with_timeout .timeout "hello" "en").fst =
      get_smart_fallback_response "hello" "en" ∧
    (parse_intent_with_timeout .timeout "hello" "en").fst.confidence = some conf08 ∧
    (parse_intent_with_timeout .timeout "hello" "en").fst.fallback_used = some true ∧
    aiTimeoutSeconds = 15 :=
  C4_timeout_fallback "hello" "en" .timeout (Or.inl rfl)

/-- Claim C5: a query message carrying any profit/loss keyword is resolved by
the profit/loss path no matter what the classifier claimed (the answer is
independent of the classifier result and only the profit/loss aggregate is
read), and on income 1000 / expenses 400 the responder computes net profit
600, margin 60.0%, and renders the profit (not loss) template family. -/
theorem C5_profit_priority :
    (∀ (iface : LedgerIface) (ir ir2 : IntentResult) (message language : String),
      containsAnyKw (lowerString message) profitLossKws = true →
      answer_query iface ir message language = answer_query iface ir2 message language ∧
      (answer_query iface ir message language).snd = [Effect.readProfitLoss]) ∧
    (get_profit_loss_summary iface1000).net_profit = ⟨600, 1⟩ ∧
    (get_profit_loss_summary iface1000).profit_margin_percentage.valEq ⟨60, 1⟩ = true ∧
    answer_query iface1000 {} "what is my profit" "en" =
      ("📊 Your business is profitable!\n\n💰 Total Income: ₹1,000.00\n💸 Total Expenses: ₹400.00\n✅ Net Profit: ₹600.00\n📈 Profit Margin: 60.0%\n\nCongratulations! Your business is doing well. 🎉",
       [Effect.readProfitLoss]) := by
  refine ⟨?_, by decide, by decide, by decide⟩
  intro iface ir ir2 message language h
  refine ⟨?_, ?_⟩ <;> simp [answer_query, h]

/-- Witness for C5: the priority part applied at a concrete message that also
contains an income keyword, with two different classifier claims. -/
theorem C5_witness :
    answer_query iface1000 { intent := some "income" } "what is my profit" "en" =
      answer_query iface1000 {} "what is my profit" "en" ∧
    (answer_query iface1000 { intent := some "income" } "what is my profit" "en").snd =
      [Effect.readProfitLoss] :=
  C5_profit_priority.1 iface1000 { intent := some "income" } {} "what is my profit" "en"
    (by decide)

/-- Claim C6, counterexample: an income query with an explicit today
qualifier is not answered with a today-scoped aggregate — the pipeline
returns the classifier text or the fixed coming-soon placeholder and reads
no aggregate at all. -/
theorem C6_counterexample :
    answer_query simpleLedger { action := some "query" } "how much income today" "en" =
      ("Income query functionality coming soon!", []) := by decide

/-- Claim C6, amended: only expense queries with an English or Hindi today
qualifier, reaching the branch gated on classifier action query, are
answered with the today-scoped aggregate; income-today queries receive a
placeholder instead of any aggregate. -/
theorem C6_amended_today_scope (iface : LedgerIface) (ir : IntentResult) (language : String)
    (ha : ir.action = some "query") (hs : iface.todaySuccess = true)
    (hc : 0 < iface.todayCount) :
    answer_query iface ir "expense today" language =
      (todayExpenseMsg language iface.todayTotal iface.todayCount,
       [Effect.readTodayExpenses]) := by
  have h1 : containsAnyKw (lowerString "expense today") profitLossKws = false := by decide
  have h2 : containsAnyKw (lowerString "expense today") incomeDirectKws = false := by decide
  have h3 : hasTodayQualifier (lowerString "expense today") = true := by decide
  have h4 : containsSubstr (lowerString "expense today") "expense" = true := by decide
  unfold answer_query
  simp [h1, h2, h3, h4, ha, get_today_expenses, hs, hc]

/-- Witness for C6: the amended theorem at a concrete ledger with two
expense transactions today totalling 250.5. -/
theorem C6_witness :
    answer_query
      { simpleLedger with todayTotal := ⟨2505, 10⟩, todayCount := 2, todaySuccess := true }
      { action := some "query" } "expense today" "en" =
      (todayExpenseMsg "en" ⟨2505, 10⟩ 2, [Effect.readTodayExpenses]) :=
  C6_amended_today_scope
    { simpleLedger with todayTotal := ⟨2505, 10⟩, todayCount := 2, todaySuccess := true }
    { action := some "query" } "en" rfl rfl (by decide)

/-- Claim C7: for every language, the fast pattern matcher on income 500
detects an income intent of amount 500, applies it to the ledger exactly
once (a single addIncome effect), synthesizes the default description and
category, marks the result fast_detection with confidence 0.98, and makes
no classifier call (no aiCall effect appears in the trace). -/
theorem C7_fast_income_500 (iface : LedgerIface) (language : String)
    (hsave : iface.saveChatRaises = false)
    (hsucc : (iface.add_income ⟨500, 1⟩ "Income - ₹500.0" "General" "fast_detection"
      (some language)).success = true) :
    ultra_fast_transaction_detection iface "income 500" language =
      (.matched { success := true
                , message := (iface.add_income ⟨500, 1⟩ "Income - ₹500.0" "General"
                    "fast_detection" (some language)).message
                , intent := some "income", confidence := some conf098
                , business_results := [iface.add_income ⟨500, 1⟩ "Income - ₹500.0" "General"
                    "fast_detection" (some language)]
                , transactions_processed := some 1, fast_detection := true }
      , [Effect.addIncome ⟨500, 1⟩ "Income - ₹500.0" "General" "fast_detection" (some language)
        , .saveChat "income"]) := by
  have hchars : trimChars ("income 500".data.map Char.toLower) = "income 500".data := by decide
  have hm : patMatch (FastPat.kwFirst "income" true FKind.income) "income 500".data =
      some ⟨500, 1⟩ := by decide
  have hlt : (PyRat.ofInt 0).lt ⟨500, 1⟩ = true := by decide
  have hrepr : "Income - ₹" ++ pyFloatRepr ⟨500, 1⟩ = "Income - ₹500.0" := by decide
  unfold ultra_fast_transaction_detection fastPatterns
  rw [hchars, ultraFastGo]
  simp only [hm, hlt, if_true, FastPat.kind, hrepr, hsucc, hsave, Bool.false_eq_true, if_false]

/-- Witness for C7: the theorem at the always-succeeding ledger. -/
theorem C7_witness :
    ultra_fast_transaction_detection simpleLedger "income 500" "hi" =
      (.matched { success := true
                , message := (simpleLedger.add_income ⟨500, 1⟩ "Income - ₹500.0" "General"
                    "fast_detection" (some "hi")).message
                , intent := some "income", confidence := some conf098
                , business_results := [simpleLedger.add_income ⟨500, 1⟩ "Income - ₹500.0" "General"
                    "fast_detection" (some "hi")]
                , transactions_processed := some 1, fast_detection := true }
      , [Effect.addIncome ⟨500, 1⟩ "Income - ₹500.0" "General" "fast_detection" (some "hi")
        , .saveChat "income"]) :=
  C7_fast_income_500 simpleLedger "hi" rfl rfl

/-- Claim C8: the history sink write at the end of process_text_message is
not guarded — when save_chat_history raises, the exception falls through to
the outer handler and the caller receives the structured failure response
(success false, HTTP 500) instead of the success response it would have
received with a healthy sink. The code therefore violates the fire-and-forget
contract the spec states for the history sink. -/
theorem C8_history_sink_failure :
    (process_text_message { simpleLedger with saveChatRaises := true }
      (.ok { intent := some "conversational", response_message := some "Hi there" })
      "hello friend" "en" "general").fst.success = false ∧
    (process_text_message { simpleLedger with saveChatRaises := true }
      (.ok { intent := some "conversational", response_message := some "Hi there" })
      "hello friend" "en" "general").fst.statusCode = 500 ∧
    (process_text_message simpleLedger
      (.ok { intent := some "conversational", response_message := some "Hi there" })
      "hello friend" "en" "general").fst.success = true := by
  refine ⟨by decide, by decide, by decide⟩

lemma greetingResponse_mem (language : String) : greetingResponse language ∈ fallbackPool := by
  unfold greetingResponse
  split_ifs <;> decide

lemma helpResponse_mem (language : String) : helpResponse language ∈ fallbackPool := by
  unfold helpResponse
  split_ifs <;> decide

lemma howResponse_mem (language : String) : howResponse language ∈ fallbackPool := by
  unfold howResponse
  split_ifs <;> decide

lemma defaultFallbackResponse_mem (language : String) :
    defaultFallbackResponse language ∈ fallbackPool := by
  unfold defaultFallbackResponse
  split_ifs <;> decide

/-- Claim C9: the fallback responder is a pure total function (the embedding
is a plain function of message and language): its text always belongs to the
fixed pool of twenty canned strings, all of which are nonempty; its result
always carries intent conversational, confidence 0.8, fallback_used true and
is_business_related true; and the greeting, help and how keyword sets are
tested in that order with the first match winning, the default firing only
when none matches. -/
theorem C9_fallback_total :
    (∀ message language : String,
      (get_smart_fallback_response message language).response_message.getD "" ∈ fallbackPool) ∧
    fallbackPool.all (fun s => !s.isEmpty) = true ∧
    (∀ message language : String,
      (get_smart_fallback_response message language).intent = some "conversational" ∧
      (get_smart_fallback_response message language).confidence = some conf08 ∧
      (get_smart_fallback_response message language).fallback_used = some true ∧
      (get_smart_fallback_response message language).is_business_related = some true) ∧
    (∀ message language : String,
      containsAnyKw (String.mk (trimChars (message.data.map Char.toLower))) greetingKws = true →
      (get_smart_fallback_response message language).response_message =
        some (greetingResponse language)) ∧
    (∀ message language : String,
      containsAnyKw (String.mk (trimChars (message.data.map Char.toLower))) greetingKws = false →
      containsAnyKw (String.mk (trimChars (message.data.map Char.toLower))) helpKws = true →
      (get_smart_fallback_response message language).response_message =
        some (helpResponse language)) ∧
    (∀ message language : String,
      containsAnyKw (String.mk (trimChars (message.data.map Char.toLower))) greetingKws = false →
      containsAnyKw (String.mk (trimChars (message.data.map Char.toLower))) helpKws = false →
      containsAnyKw (String.mk (trimChars (message.data.map Char.toLower))) howKws = true →
      (get_smart_fallback_response message language).response_message =
        some (howResponse language)) ∧
    (∀ message language : String,
      containsAnyKw (String.mk (trimChars (message.data.map Char.toLower))) greetingKws = false →
      containsAnyKw (String.mk (trimChars (message.data.map Char.toLower))) helpKws = false →
      containsAnyKw (String.mk (trimChars (message.data.map Char.toLower))) howKws = false →
      (get_smart_fallback_response message language).response_message =
        some (defaultFallbackResponse language)) := by
  refine ⟨?_, by decide, ?_, ?_, ?_, ?_, ?_⟩
  · intro message language
    unfold get_smart_fallback_response smartFallbackText
    simp only [Option.getD_some]
    split_ifs <;>
      [exact greetingResponse_mem language; exact helpResponse_mem language;
       exact howResponse_mem language; exact defaultFallbackResponse_mem language]
  · intro message language
    exact ⟨rfl, rfl, rfl, rfl⟩
  · intro message language hg
    unfold get_smart_fallback_response smartFallbackText
    simp [hg]
  · intro message language hg hh
    unfold get_smart_fallback_response smartFallbackText
    simp [hg, hh]
  · intro message language hg hh hw
    unfold get_smart_fallback_response smartFallbackText
    simp [hg, hh, hw]
  · intro message language hg hh hw
    unfold get_smart_fallback_response smartFallbackText
    simp [hg, hh, hw]

/-- Witness for C9: the greeting branch fires on hi in English. -/
theorem C9_witness :
    (get_smart_fallback_response "hi" "en").response_message =
      some (greetingResponse "en") :=
  C9_fallback_total.2.2.2.1 "hi" "en" (by decide)

/-- Claim C10: a missing Authorization header, a header without the Bearer
prefix (the empty string among them), and a Bearer token the resolver does
not recognize, all make every endpoint operate on the fixed user id
default_user without rejecting the request; only a resolving Bearer token
selects another account. -/
theorem C10_default_user :
    (∀ resolveToken : String → Option String,
      get_user_id_from_auth resolveToken none = "default_user") ∧
    (∀ (resolveToken : String → Option String) (a : String),
      startsWithStr a "Bearer " = false →
      get_user_id_from_auth resolveToken (some a) = "default_user") ∧
    (∀ (resolveToken : String → Option String) (a : String),
      resolveToken (String.mk ((splitSpaceList a.data).getD 1 [])) = none →
      get_user_id_from_auth resolveToken (some a) = "default_user") ∧
    (∀ (resolveToken : String → Option String) (a uid : String),
      startsWithStr a "Bearer " = true →
      resolveToken (String.mk ((splitSpaceList a.data).getD 1 [])) = some uid →
      get_user_id_from_auth resolveToken (some a) = uid) := by
  refine ⟨fun r => rfl, ?_, ?_, ?_⟩
  · intro r a h
    unfold get_user_id_from_auth
    simp [h]
  · intro r a h
    simp only [get_user_id_from_auth]
    by_cases hb : startsWithStr a "Bearer " = true
    · rw [if_pos hb, h]
    · rw [if_neg hb]
  · intro r a uid hb hres
    simp only [get_user_id_from_auth]
    rw [if_pos hb, hres]

/-- Witness for C10: an unrecognized plain header falls back to default_user. -/
theorem C10_witness :
    get_user_id_from_auth (fun _ => none) (some "abc") = "default_user" :=
  C10_default_user.2.1 (fun _ => none) "abc" (by decide)

end BizSakhi
